import Mathlib

/-!
# Verification of the AR_Wings anchored-overlay pipeline

Shallow embedding of the AR_Wings repository's core logic:

* `WingsRig.updateFromShoulders` (src/three/wings.js) — the anchor smoother:
  normalisation of shoulder keypoints, exponential smoothing of position and
  tilt, horizontal offset with a clamped minimum, facing-mode mirroring.
* `WingsRig.loadAssets` (src/three/wings.js) — the tiered asset fallback chain.
* `KsplatLoader.parseKsplat` (the direct ksplat container decoder) — byte-level
  parse of the 44-byte-record container format.
* `PoseTracker.estimate` (src/vision/pose.js) and the frame-driver tick
  (src/main.js) — detection caching and hold-last-anchor behaviour.
* `switchCamera` / `setupThreeJS` (script.js) — restart-on-camera-switch
  state handling.

JavaScript numbers are modelled as exact rationals (`ℚ`); byte buffers as
`List ℕ` of byte values; 32-bit float fields of the container format are kept
as their raw little-endian 32-bit words (the decoder never computes with
them, so this is bit-faithful).
-/

namespace ARWings

/-- Exact rational value of the IEEE-754 double constant `Math.PI`. -/
def mathPI : ℚ := 884279719003555 / 281474976710656

/-- Constant `WING_VERTICAL_SHIFT = 0.5` (wings.js). -/
def WING_VERTICAL_SHIFT : ℚ := 1/2

/-- Constant `SHOULDER_PIVOT_MULTIPLIER = 0.55` (wings.js). -/
def SHOULDER_PIVOT_MULTIPLIER : ℚ := 55/100

/-- Constant `MIN_HORIZONTAL_OFFSET = 0.25` (wings.js). -/
def MIN_HORIZONTAL_OFFSET : ℚ := 1/4

/-- Constant `MAX_X_ROTATION = Math.PI / 6` (wings.js). -/
def MAX_X_ROTATION : ℚ := mathPI / 6

/-- Constant `Y_DIFF_SENS = 150` (wings.js). -/
def Y_DIFF_SENS : ℚ := 150

/-- Constant `BASE_SCALE = 1.8` (wings.js). -/
def BASE_SCALE : ℚ := 9/5

/-- A pose keypoint `{x, y, score}` in image pixel space (pose.js). -/
structure Keypoint where
  x : ℚ
  y : ℚ
  score : ℚ
deriving DecidableEq, Repr

/-- A validated pair of shoulder keypoints (pose.js `lastGood`,
wings.js `lastAnchor`). -/
structure ShoulderPair where
  left : Keypoint
  right : Keypoint
deriving DecidableEq, Repr

/-- The camera facing mode: `'user'` (front/selfie) or `'environment'`
(rear). -/
inductive FacingMode where
  | user
  | environment
deriving DecidableEq, Repr

/-- Clamp as in `THREE.MathUtils.clamp(value, min, max) = Math.max(min,
Math.min(value, max))`. -/
def clamp (value lo hi : ℚ) : ℚ := max lo (min value hi)

/-- The argument record of `WingsRig.updateFromShoulders`, together with the
`window.innerHeight` read inside it. -/
structure UpdateInput where
  left : Keypoint
  right : Keypoint
  videoWidth : ℚ
  videoHeight : ℚ
  facingMode : FacingMode
  innerHeight : ℚ
deriving DecidableEq, Repr

/-- The mutable state of a `WingsRig` that `updateFromShoulders` touches:
`group.position`, `group.rotation.x`, `currentOffset`, `currentScale`,
`lastAnchor`. -/
structure RigState where
  posX : ℚ
  posY : ℚ
  posZ : ℚ
  rotX : ℚ
  currentOffset : ℚ
  currentScale : ℚ
  lastAnchor : Option ShoulderPair
deriving DecidableEq, Repr

/-- The `WingsRig` constructor state: position `(0, 0, -9.9)`, rotation `0`,
`currentScale = BASE_SCALE`, `currentOffset = 0`, `lastAnchor = null`. -/
def initialRig : RigState :=
  { posX := 0, posY := 0, posZ := -99/10, rotX := 0,
    currentOffset := 0, currentScale := BASE_SCALE, lastAnchor := none }

/-- Normalised shoulder-midpoint X:
`normX = ((left.x + right.x) / 2 / videoWidth) * 2 - 1`. -/
def normXof (i : UpdateInput) : ℚ :=
  ((i.left.x + i.right.x) / 2 / i.videoWidth) * 2 - 1

/-- Normalised shoulder-midpoint Y (image Y grows downward):
`normY = -((left.y + right.y) / 2 / videoHeight) * 2 + 1`. -/
def normYof (i : UpdateInput) : ℚ :=
  -(((i.left.y + i.right.y) / 2) / i.videoHeight) * 2 + 1

/-- The smoothing target for `group.position.x`: `normX`, negated when the
camera is front-facing (`facingMode === 'user'`). -/
def targetX (i : UpdateInput) : ℚ :=
  if i.facingMode = FacingMode.user then -(normXof i) else normXof i

/-- The smoothing target for `group.position.y`:
`normY - WING_VERTICAL_SHIFT` (no mirroring on the Y axis). -/
def targetY (i : UpdateInput) : ℚ := normYof i - WING_VERTICAL_SHIFT

/-- Normalised X of a single shoulder: `(px / videoWidth) * 2 - 1`. -/
def normShoulderX (px w : ℚ) : ℚ := (px / w) * 2 - 1

/-- Facing-dependent sign applied to a normalised shoulder X
(`sxL = facingMode === 'user' ? -nL : nL`). -/
def mirrorX (fm : FacingMode) (v : ℚ) : ℚ :=
  if fm = FacingMode.user then -v else v

/-- Shoulder span `span = Math.abs(sxR - sxL)` of the normalised, mirrored
shoulder Xs. -/
def spanOf (i : UpdateInput) : ℚ :=
  |mirrorX i.facingMode (normShoulderX i.right.x i.videoWidth) -
    mirrorX i.facingMode (normShoulderX i.left.x i.videoWidth)|

/-- Horizontal offset
`offset = Math.max((span / 2) * SHOULDER_PIVOT_MULTIPLIER,
MIN_HORIZONTAL_OFFSET)`. -/
def offsetOf (i : UpdateInput) : ℚ :=
  max ((spanOf i / 2) * SHOULDER_PIVOT_MULTIPLIER) MIN_HORIZONTAL_OFFSET

/-- The smoothing target for `group.rotation.x`: the clamped pitch from the
shoulder slope, negated when front-facing. -/
def tiltTarget (i : UpdateInput) : ℚ :=
  let yDiff := i.left.y - i.right.y
  let r := clamp (yDiff / Y_DIFF_SENS * MAX_X_ROTATION)
    (-MAX_X_ROTATION) MAX_X_ROTATION
  if i.facingMode = FacingMode.user then -r else r

/-- Display scale `currentScale = BASE_SCALE * scaleAdj * Math.min(1.0,
innerHeight / 800)`, where `scaleAdj` is the discrete aspect-ratio band. -/
def scaleOf (i : UpdateInput) : ℚ :=
  let aspect := i.videoWidth / i.videoHeight
  let scaleAdj : ℚ := if aspect < 1 then 17/20 else if aspect > 17/10 then 11/10 else 1
  let screenHFactor := i.innerHeight / 800
  BASE_SCALE * scaleAdj * min 1 screenHFactor

/-- Method `WingsRig.updateFromShoulders` (wings.js lines 251-292): caches the pair
into `lastAnchor`, exponentially smooths `position.x/y` and `rotation.x`
toward their freshly computed targets with factor `0.6`, recomputes
`currentOffset` and `currentScale` unsmoothed, and leaves `position.z`
untouched. -/
def updateFromShoulders (s : RigState) (i : UpdateInput) : RigState :=
  { posX := s.posX + (targetX i - s.posX) * (3/5),
    posY := s.posY + (targetY i - s.posY) * (3/5),
    posZ := s.posZ,
    rotX := s.rotX + (tiltTarget i - s.rotX) * (3/5),
    currentOffset := offsetOf i,
    currentScale := scaleOf i,
    lastAnchor := some ⟨i.left, i.right⟩ }

/-- Folding a list of per-frame inputs through `updateFromShoulders`. -/
def runUpdates (s : RigState) (l : List UpdateInput) : RigState :=
  l.foldl updateFromShoulders s

/-! ## Asset fallback chain (`WingsRig.loadAssets`, wings.js lines 41-68) -/

/-- An overlay asset tier: point-cloud ksplat, mesh PLY, or primitive box
placeholder. -/
inductive Tier where
  | ksplat
  | ply
  | boxes
deriving DecidableEq, Repr

/-- A single renderable wing part as configured by the loaders
(`visible = false`, a render order). -/
structure Part where
  visible : Bool
  renderOrder : ℕ
deriving DecidableEq, Repr

/-- The two symmetric parts a loader assigns to `this.left` / `this.right`. -/
structure LoadedParts where
  left : Part
  right : Part
deriving DecidableEq, Repr

/-- Method `WingsRig._loadBoxes`: the synchronous primitive placeholder; both parts
start invisible with render order 2. It cannot fail. -/
def loadBoxes : LoadedParts :=
  { left := { visible := false, renderOrder := 2 },
    right := { visible := false, renderOrder := 2 } }

/-- The outcome of `loadAssets`: which tier ended up active and its two
parts. -/
structure LoadResult where
  tier : Tier
  parts : LoadedParts
deriving DecidableEq, Repr

/-- Method `WingsRig.loadAssets(renderer)` (wings.js lines 41-68): try the ksplat
tier, on any failure fall through to the PLY tier, on any failure fall back
to the box placeholder. Each async tier attempt is represented by its
`Except` outcome (success carries the parts it assigned); every thrown error
is caught at the tier boundary, so the function is total. -/
def loadAssets (ksplatAttempt plyAttempt : Except String LoadedParts) :
    LoadResult :=
  match ksplatAttempt with
  | .ok parts => { tier := Tier.ksplat, parts := parts }
  | .error _ =>
    match plyAttempt with
    | .ok parts => { tier := Tier.ply, parts := parts }
    | .error _ => { tier := Tier.boxes, parts := loadBoxes }

/-! ## Ksplat container decoder (`KsplatLoader.parseKsplat`)

Bytes are `ℕ` values below 256 in a `List ℕ`.  A 32-bit float field is kept
as its little-endian 32-bit word, since the decoder only reinterprets bytes
and never computes with the float values. -/

/-- Byte read `data[i]`, with JavaScript's out-of-range `undefined` collapsed to `0`
(only the alpha read can ever be affected, via its `|| 255` default). -/
def byteAt (d : List ℕ) (i : ℕ) : ℕ := d.getD i 0

/-- Little-endian 32-bit word from four bytes
(`DataView.getUint32(·, true)`). -/
def u32le (b0 b1 b2 b3 : ℕ) : ℕ :=
  b0 + b1 * 256 + b2 * 65536 + b3 * 16777216

/-- The little-endian 32-bit word starting at byte index `i`. -/
def word32At (d : List ℕ) (i : ℕ) : ℕ :=
  u32le (byteAt d i) (byteAt d (i+1)) (byteAt d (i+2)) (byteAt d (i+3))

/-- Header test `String.fromCharCode(data[0], data[1], data[2]) === 'KSP'`. -/
def hasKSPHeader (d : List ℕ) : Bool :=
  byteAt d 0 == 75 && byteAt d 1 == 83 && byteAt d 2 == 80

/-- The byte offset at which splat records start: 8 with a `KSP` header
(4 magic+version bytes then the 4-byte count), 4 without. -/
def headerOffset (d : List ℕ) : ℕ := if hasKSPHeader d then 8 else 4

/-- The JavaScript alpha read `data[currentOffset + 3] || 255`: a zero (or
out-of-range) byte is replaced by 255. -/
def alphaAt (d : List ℕ) (i : ℕ) : ℕ :=
  let b := byteAt d i
  if b = 0 then 255 else b

/-- The structured errors `parseKsplat` can throw. -/
inductive ParseError where
  | tooSmall
  | headerTruncated
  | invalidCount (declared : ℕ)
  | truncated (expected actual : ℕ)
deriving DecidableEq, Repr

/-- The decoded splat arrays: per record 3 position words, 4 color bytes,
3 scale words, 4 rotation words. -/
structure SplatData where
  positions : List ℕ
  colors : List ℕ
  scales : List ℕ
  rotations : List ℕ
  count : ℕ
deriving DecidableEq, Repr

/-- The per-record decode loop of `parseKsplat`: each 44-byte record holds
12 bytes position (3 float32 words), 16 bytes rotation quaternion (4 words),
12 bytes scale (3 words), then 4 RGBA bytes with the `|| 255` alpha
default. -/
def decodeSplats (d : List ℕ) : ℕ → ℕ → List ℕ × List ℕ × List ℕ × List ℕ
  | _, 0 => ([], [], [], [])
  | off, n + 1 =>
    let rest := decodeSplats d (off + 44) n
    (word32At d off :: word32At d (off + 4) :: word32At d (off + 8) ::
      rest.1,
     byteAt d (off + 40) :: byteAt d (off + 41) :: byteAt d (off + 42) ::
      alphaAt d (off + 43) :: rest.2.1,
     word32At d (off + 28) :: word32At d (off + 32) ::
      word32At d (off + 36) :: rest.2.2.1,
     word32At d (off + 12) :: word32At d (off + 16) ::
      word32At d (off + 20) :: word32At d (off + 24) :: rest.2.2.2)

/-- The final stage of `parseKsplat` for an accepted count: the
`expectedSize` truncation check, then the record decode loop. -/
def finishParse (d : List ℕ) (off count : ℕ) :
    Except ParseError SplatData :=
  if d.length < off + count * 44 then
    Except.error (ParseError.truncated (off + count * 44) d.length)
  else
    let arrays := decodeSplats d off count
    Except.ok
      { positions := arrays.1, colors := arrays.2.1,
        scales := arrays.2.2.1, rotations := arrays.2.2.2,
        count := count }

/-- The tail of `parseKsplat` once the record offset and the declared count
are known: accept the declared count when it is in range, otherwise fall
back to the size-based estimate `(data.length - offset) / 44`, accepted
only when `0 < estimate && estimate < 10000000`. -/
def parseBody (d : List ℕ) (off declared : ℕ) :
    Except ParseError SplatData :=
  if declared = 0 ∨ declared > 10000000 then
    let est := (d.length - off) / 44
    if 0 < est ∧ est < 10000000 then finishParse d off est
    else Except.error (ParseError.invalidCount declared)
  else finishParse d off declared

/-- Method `KsplatLoader.parseKsplat(data)`: reject buffers under 4 bytes; with a
`KSP` magic header read the count at offset 4 (a buffer of length 4-7
makes the `DataView` constructor throw a `RangeError`, modelled as
`headerTruncated`); without a header the count is the first 4 bytes. -/
def parseKsplat (d : List ℕ) : Except ParseError SplatData :=
  if d.length < 4 then Except.error ParseError.tooSmall
  else if hasKSPHeader d then
    if d.length < 8 then Except.error ParseError.headerTruncated
    else parseBody d 8 (word32At d 4)
  else parseBody d 4 (word32At d 0)

/-! ## Pose tracker and frame-driver tick (pose.js, main.js) -/

/-- What one `detector.estimatePoses` round trip produced: a thrown error,
an empty pose list, or a keypoint list in which the two shoulder lookups
found (or did not find) keypoints. -/
inductive DetectOutcome where
  | detectorError
  | noPoses
  | keypoints (L R : Option Keypoint)
deriving DecidableEq, Repr

/-- Method `PoseTracker.estimate` (pose.js lines 23-41) as a transition on the
`lastGood` cache: every branch assigns `lastGood` — a fresh valid pair on
success (`L?.score > 0.4 && R?.score > 0.4`), `null` on no person, low
confidence, a missing shoulder keypoint, or a detector error. -/
def estimateStep (_lastGood : Option ShoulderPair) (o : DetectOutcome) :
    Option ShoulderPair :=
  match o with
  | .detectorError => none
  | .noPoses => none
  | .keypoints L R =>
    match L, R with
    | some l, some r =>
      if 2/5 < l.score ∧ 2/5 < r.score then some ⟨l, r⟩ else none
    | _, _ => none

/-- The joint state main.js's loop reads and writes each tick. -/
structure DriverState where
  poseLastGood : Option ShoulderPair
  rig : RigState
deriving DecidableEq, Repr

/-- One tick of main.js's `loop` restricted to the anchor path: read
`pose.getLastShoulders()`; if a pair is cached, run
`wings.updateFromShoulders` on it; independently, if a (throttled, async)
detection round completed during this tick, its outcome rewrites the
tracker's `lastGood` cache via `estimateStep`. -/
def tick (s : DriverState) (det : Option DetectOutcome)
    (vw vh ih : ℚ) (fm : FacingMode) : DriverState :=
  let rig' := match s.poseLastGood with
    | some p =>
      updateFromShoulders s.rig
        { left := p.left, right := p.right, videoWidth := vw,
          videoHeight := vh, facingMode := fm, innerHeight := ih }
    | none => s.rig
  let pose' := match det with
    | some o => estimateStep s.poseLastGood o
    | none => s.poseLastGood
  { poseLastGood := pose', rig := rig' }

/-- A tick's inputs bundled, to run sequences of ticks. -/
structure TickEvent where
  det : Option DetectOutcome
  vw : ℚ
  vh : ℚ
  ih : ℚ
  fm : FacingMode
deriving DecidableEq, Repr

/-- Running a sequence of ticks. -/
def runTicks (s : DriverState) (l : List TickEvent) : DriverState :=
  l.foldl (fun st e => tick st e.det e.vw e.vh e.ih e.fm) s

/-! ## Camera-switch restart (script.js lines 121-144, 303-325) -/

/-- Which asset tier script.js resolved (`wingsAssetLeft/Right` are either
`SplatMesh`es or box meshes). -/
inductive ScriptTier where
  | splat
  | boxes
deriving DecidableEq, Repr

/-- A `{x, y, z}` smoothing accumulator. -/
structure Vec3 where
  x : ℚ
  y : ℚ
  z : ℚ
deriving DecidableEq, Repr

/-- The module-level script.js state that `switchCamera` and `setupThreeJS`
touch. -/
structure ScriptState where
  cameraMode : FacingMode
  smoothedPosLeft : Vec3
  smoothedPosRight : Vec3
  isSplatAttempted : Bool
  tier : Option ScriptTier
  isRunning : Bool
deriving DecidableEq, Repr

/-- Toggle between `'user'` and `'environment'`. -/
def toggleMode : FacingMode → FacingMode
  | .user => .environment
  | .environment => .user

/-- The asset block of `setupThreeJS` (script.js lines 303-325):
when `isSplatAttempted` is still false the fallback chain runs
(`USE_GAUSSIAN_SPLAT` is `true`): if both splat fetches succeed
(`splatReachable`), `loadSplatModels` activates the splat tier and the
attempted flag stays set; on failure `createBoxWings` activates the box
tier and resets `isSplatAttempted` to false. When `isSplatAttempted` is
already true, the existing `wingsGroup` is simply re-added — tier and
assets are untouched. -/
def setupThreeAssets (splatReachable : Bool) (s : ScriptState) :
    ScriptState :=
  if s.isSplatAttempted then s
  else if splatReachable then
    { s with tier := some ScriptTier.splat, isSplatAttempted := true }
  else
    { s with tier := some ScriptTier.boxes, isSplatAttempted := false }

/-- Function `switchCamera` (script.js lines 121-144) followed by the `startAR` →
`setupThreeJS` re-entry: halt the loop, toggle `CAMERA_MODE`, zero both
smoothing accumulators, rebuild the scene (running the asset block), then
resume. -/
def switchCamera (splatReachable : Bool) (s : ScriptState) : ScriptState :=
  let s1 : ScriptState :=
    { s with isRunning := false,
             cameraMode := toggleMode s.cameraMode,
             smoothedPosLeft := ⟨0, 0, 0⟩,
             smoothedPosRight := ⟨0, 0, 0⟩ }
  let s2 := setupThreeAssets splatReachable s1
  { s2 with isRunning := true }

/-! ## Shared concrete inputs and helper lemmas -/

/-- The end-to-end scenario input: shoulders `(100,200)` and `(300,200)`
with confidence `0.9`, frame `640×480`, rear camera, a 800-pixel-high
viewport. -/
def rear640Input : UpdateInput :=
  { left := ⟨100, 200, 9/10⟩, right := ⟨300, 200, 9/10⟩,
    videoWidth := 640, videoHeight := 480,
    facingMode := FacingMode.environment, innerHeight := 800 }

/-- A concrete high-confidence shoulder pair. -/
def goodPair : ShoulderPair := ⟨⟨100, 200, 9/10⟩, ⟨300, 200, 9/10⟩⟩

lemma max_x_rotation_pos : 0 < MAX_X_ROTATION := by
  unfold MAX_X_ROTATION mathPI
  norm_num

/-- The tilt smoothing target is always inside the clamp interval. -/
lemma abs_tiltTarget_le (i : UpdateInput) :
    |tiltTarget i| ≤ MAX_X_ROTATION := by
  have hM : 0 < MAX_X_ROTATION := max_x_rotation_pos
  unfold tiltTarget clamp
  set v := (i.left.y - i.right.y) / Y_DIFF_SENS * MAX_X_ROTATION with hv
  have h1 : -MAX_X_ROTATION ≤ max (-MAX_X_ROTATION) (min v MAX_X_ROTATION) :=
    le_max_left _ _
  have h2 : max (-MAX_X_ROTATION) (min v MAX_X_ROTATION) ≤ MAX_X_ROTATION :=
    max_le (by linarith) (min_le_right _ _)
  rcases h : i.facingMode with _ | _ <;> simp <;> rw [abs_le] <;>
    constructor <;> linarith

/-- One smoothing step on `rotation.x` is a convex combination of the old
value and the clamped target, so the clamp interval is preserved. -/
lemma rotX_invariant (s : RigState) (i : UpdateInput)
    (h : |s.rotX| ≤ MAX_X_ROTATION) :
    |(updateFromShoulders s i).rotX| ≤ MAX_X_ROTATION := by
  have hrot : (updateFromShoulders s i).rotX
      = (2/5) * s.rotX + (3/5) * tiltTarget i := by
    simp only [updateFromShoulders]
    ring
  have ht := abs_tiltTarget_le i
  rw [hrot]
  calc |(2/5) * s.rotX + (3/5) * tiltTarget i|
      ≤ |(2/5) * s.rotX| + |(3/5) * tiltTarget i| := abs_add _ _
    _ = (2/5) * |s.rotX| + (3/5) * |tiltTarget i| := by
        rw [abs_mul, abs_mul, abs_of_pos (by norm_num : (0:ℚ) < 2/5),
          abs_of_pos (by norm_num : (0:ℚ) < 3/5)]
    _ ≤ (2/5) * MAX_X_ROTATION + (3/5) * MAX_X_ROTATION := by
        have h2 : (2/5 : ℚ) * |s.rotX| ≤ (2/5) * MAX_X_ROTATION := by
          nlinarith
        have h3 : (3/5 : ℚ) * |tiltTarget i| ≤ (3/5) * MAX_X_ROTATION := by
          nlinarith
        linarith
    _ = MAX_X_ROTATION := by ring

/-- The clamp interval `[-π/6, π/6]` is an inductive invariant of any run
starting from the constructor state. -/
lemma runUpdates_rotX_le (l : List UpdateInput) (s : RigState)
    (h : |s.rotX| ≤ MAX_X_ROTATION) :
    |(runUpdates s l).rotX| ≤ MAX_X_ROTATION := by
  induction l generalizing s with
  | nil => exact h
  | cons i t ih =>
    simp only [runUpdates, List.foldl_cons] at *
    exact ih _ (rotX_invariant s i h)

lemma runUpdates_append_single (s : RigState) (l : List UpdateInput)
    (i : UpdateInput) :
    runUpdates s (l ++ [i]) = updateFromShoulders (runUpdates s l) i := by
  simp [runUpdates, List.foldl_append]

/-- Per-step error contraction on the X axis: the remaining error to a
fixed target is multiplied by `2/5` (equivalently, 60% of it is closed). -/
lemma step_error_x (s : RigState) (i : UpdateInput) (tx : ℚ)
    (h : targetX i = tx) :
    tx - (updateFromShoulders s i).posX = (tx - s.posX) * (2/5) := by
  simp only [updateFromShoulders, h]
  ring

/-- Per-step error contraction on the Y axis. -/
lemma step_error_y (s : RigState) (i : UpdateInput) (ty : ℚ)
    (h : targetY i = ty) :
    ty - (updateFromShoulders s i).posY = (ty - s.posY) * (2/5) := by
  simp only [updateFromShoulders, h]
  ring

/-- Geometric error formula on the X axis for any run whose inputs all
share the target `tx`. -/
lemma runUpdates_error_x (l : List UpdateInput) (s : RigState) (tx : ℚ)
    (h : ∀ i ∈ l, targetX i = tx) :
    tx - (runUpdates s l).posX = (tx - s.posX) * (2/5) ^ l.length := by
  induction l generalizing s with
  | nil => simp [runUpdates]
  | cons i t ih =>
    have hi : targetX i = tx := h i (List.mem_cons_self i t)
    have ht : ∀ j ∈ t, targetX j = tx := fun j hj => h j (List.mem_cons_of_mem i hj)
    simp only [runUpdates, List.foldl_cons] at *
    rw [ih (updateFromShoulders s i) ht, step_error_x s i tx hi,
      List.length_cons, pow_succ]
    ring

/-- Geometric error formula on the Y axis. -/
lemma runUpdates_error_y (l : List UpdateInput) (s : RigState) (ty : ℚ)
    (h : ∀ i ∈ l, targetY i = ty) :
    ty - (runUpdates s l).posY = (ty - s.posY) * (2/5) ^ l.length := by
  induction l generalizing s with
  | nil => simp [runUpdates]
  | cons i t ih =>
    have hi : targetY i = ty := h i (List.mem_cons_self i t)
    have ht : ∀ j ∈ t, targetY j = ty := fun j hj => h j (List.mem_cons_of_mem i hj)
    simp only [runUpdates, List.foldl_cons] at *
    rw [ih (updateFromShoulders s i) ht, step_error_y s i ty hi,
      List.length_cons, pow_succ]
    ring

/-! ## Claim theorems -/

/-- C2: after every anchor update from a ShoulderPair — at any point of any
update sequence starting from the constructor state — `currentOffset` is
computed as `max((span/2) * 0.55, 0.25)` and hence is at least `0.25`, and
the smoothed `rotation.x` stays inside `[-π/6, π/6]` (tilt starts at 0 and
each update is a convex combination of the old value and the clamped
target). -/
theorem anchor_invariants (l : List UpdateInput) (i : UpdateInput) :
    (runUpdates initialRig (l ++ [i])).currentOffset = offsetOf i ∧
    offsetOf i =
      max ((spanOf i / 2) * SHOULDER_PIVOT_MULTIPLIER)
        MIN_HORIZONTAL_OFFSET ∧
    (1/4 : ℚ) ≤ (runUpdates initialRig (l ++ [i])).currentOffset ∧
    |(runUpdates initialRig (l ++ [i])).rotX| ≤ MAX_X_ROTATION ∧
    initialRig.rotX = 0 := by
  have hoff : (runUpdates initialRig (l ++ [i])).currentOffset
      = offsetOf i := by
    rw [runUpdates_append_single]
    rfl
  refine ⟨hoff, rfl, ?_, ?_, rfl⟩
  · rw [hoff]
    exact le_max_right _ _
  · refine runUpdates_rotX_le (l ++ [i]) initialRig ?_
    have : |initialRig.rotX| = 0 := by simp [initialRig]
    rw [this]
    exact le_of_lt max_x_rotation_pos

/-- C3: `loadAssets` activates exactly one tier, attempting ksplat first,
then PLY, then the box placeholder; each tier failure falls through to the
next, the placeholder never fails, and every outcome carries the two
symmetric parts assigned to the `left` and `right` fields.  Totality of
`loadAssets` (it returns a `LoadResult`, not an `Except`) is the model of
"never throws to its caller". -/
theorem loadAssets_fallback_chain (k p : Except String LoadedParts)
    (pk pp : LoadedParts) (e e' : String) :
    loadAssets (Except.ok pk) p = ⟨Tier.ksplat, pk⟩ ∧
    loadAssets (Except.error e) (Except.ok pp) = ⟨Tier.ply, pp⟩ ∧
    loadAssets (Except.error e) (Except.error e') =
      ⟨Tier.boxes, loadBoxes⟩ ∧
    ((loadAssets k p).tier = Tier.ksplat ↔ ∃ parts, k = Except.ok parts) ∧
    ((loadAssets k p).tier = Tier.ply ↔
      (∃ msg, k = Except.error msg) ∧ ∃ parts, p = Except.ok parts) ∧
    ((loadAssets k p).tier = Tier.boxes ↔
      (∃ msg, k = Except.error msg) ∧ ∃ msg', p = Except.error msg') := by
  refine ⟨rfl, rfl, rfl, ?_, ?_, ?_⟩ <;>
    cases k <;> cases p <;> simp [loadAssets]

/-- C6: for identical raw shoulder input and frame dimensions, the front
camera negates the computed anchor target X and the computed (clamped)
tilt, leaves the target Y alone, and produces the identical horizontal
offset. -/
theorem facing_mode_mirroring (i : UpdateInput) :
    targetX { i with facingMode := FacingMode.user }
      = -(targetX { i with facingMode := FacingMode.environment }) ∧
    tiltTarget { i with facingMode := FacingMode.user }
      = -(tiltTarget { i with facingMode := FacingMode.environment }) ∧
    offsetOf { i with facingMode := FacingMode.user }
      = offsetOf { i with facingMode := FacingMode.environment } ∧
    targetY { i with facingMode := FacingMode.user }
      = targetY { i with facingMode := FacingMode.environment } := by
  refine ⟨rfl, rfl, ?_, rfl⟩
  have huser : spanOf { i with facingMode := FacingMode.user }
      = spanOf { i with facingMode := FacingMode.environment } := by
    show |(-(normShoulderX i.right.x i.videoWidth)) -
        (-(normShoulderX i.left.x i.videoWidth))|
      = |normShoulderX i.right.x i.videoWidth -
          normShoulderX i.left.x i.videoWidth|
    rw [show (-(normShoulderX i.right.x i.videoWidth)) -
        (-(normShoulderX i.left.x i.videoWidth))
      = -(normShoulderX i.right.x i.videoWidth -
          normShoulderX i.left.x i.videoWidth) by ring, abs_neg]
  unfold offsetOf
  rw [huser]

/-- C7 counterexample: on the concrete end-to-end input from a constructor
(`zeroed`) prior transform, the depth component is NOT scaled by `0.6`:
`updateFromShoulders` leaves `position.z` at its prior value `-9.9`,
whereas the claim's `(-0.375, -0.3333, depth) * 0.6` would make it
`-5.94`. -/
theorem c7_depth_not_scaled :
    (updateFromShoulders initialRig rear640Input).posX = -9/40 ∧
    (updateFromShoulders initialRig rear640Input).posY = -1/5 ∧
    (updateFromShoulders initialRig rear640Input).posZ = -99/10 ∧
    (updateFromShoulders initialRig rear640Input).posZ ≠
      initialRig.posZ * (3/5) := by
  refine ⟨?_, ?_, ?_, ?_⟩ <;>
    norm_num [updateFromShoulders, initialRig, rear640Input, targetX,
      targetY, normXof, normYof, WING_VERTICAL_SHIFT] <;> decide

/-- C7 amended: the end-to-end scenario with the X and Y components exactly
as the claim computes them (`normX = -0.375`, `normY = 1/6`, raw target
`Y = -1/3`, one smoothing step multiplies each by `0.6`), while the depth
component is simply left unchanged at the constructor's `-9.9` (it is
never smoothed). -/
theorem end_to_end_scenario :
    normXof rear640Input = -3/8 ∧
    normYof rear640Input = 1/6 ∧
    targetX rear640Input = -3/8 ∧
    targetY rear640Input = -1/3 ∧
    (updateFromShoulders initialRig rear640Input).posX = (-3/8) * (3/5) ∧
    (updateFromShoulders initialRig rear640Input).posY = (-1/3) * (3/5) ∧
    (updateFromShoulders initialRig rear640Input).posZ = initialRig.posZ := by
  refine ⟨?_, ?_, ?_, ?_, ?_, ?_, ?_⟩ <;>
    norm_num [updateFromShoulders, initialRig, rear640Input, targetX,
      targetY, normXof, normYof, WING_VERTICAL_SHIFT] <;> decide

/-- A script.js state in which the fallback chain previously resolved to
the box placeholder tier (`createBoxWings` resets `isSplatAttempted` to
`false`). -/
def boxResolvedState : ScriptState :=
  { cameraMode := FacingMode.user, smoothedPosLeft := ⟨0, 0, 0⟩,
    smoothedPosRight := ⟨0, 0, 0⟩, isSplatAttempted := false,
    tier := some ScriptTier.boxes, isRunning := true }

/-- C9 counterexample: with the box tier resolved and the splat assets
reachable again, a camera-switch restart re-runs the fallback chain and
the active tier changes from boxes to splat — the resolved tier does not
persist unconditionally. -/
theorem c9_tier_not_always_persistent :
    (switchCamera true boxResolvedState).tier = some ScriptTier.splat ∧
    boxResolvedState.tier = some ScriptTier.boxes ∧
    (switchCamera true boxResolvedState).tier ≠ boxResolvedState.tier := by
  have h1 : (switchCamera true boxResolvedState).tier
      = some ScriptTier.splat := rfl
  have h2 : boxResolvedState.tier = some ScriptTier.boxes := rfl
  refine ⟨h1, h2, ?_⟩
  rw [h1, h2]
  simp

/-- The asset block of `setupThreeJS` never touches the smoothing
accumulators, whichever branch it takes. -/
lemma setupThreeAssets_smoothed (b : Bool) (s : ScriptState) :
    (setupThreeAssets b s).smoothedPosLeft = s.smoothedPosLeft ∧
    (setupThreeAssets b s).smoothedPosRight = s.smoothedPosRight := by
  unfold setupThreeAssets
  split_ifs <;> exact ⟨rfl, rfl⟩

/-- C9 amended: a camera-switch restart always zeroes both smoothed
position accumulators, and — provided the splat tier had been attempted
successfully (`isSplatAttempted` still `true`, which `createBoxWings`
resets) — the resolved tier and assets are reused without re-running the
fallback chain. -/
theorem switch_camera_restart (splatReachable : Bool) (mode : FacingMode)
    (pl pr : Vec3) (t : Option ScriptTier) (running : Bool)
    (s : ScriptState) :
    (switchCamera splatReachable
        ⟨mode, pl, pr, true, t, running⟩).smoothedPosLeft = ⟨0, 0, 0⟩ ∧
    (switchCamera splatReachable
        ⟨mode, pl, pr, true, t, running⟩).smoothedPosRight = ⟨0, 0, 0⟩ ∧
    (switchCamera splatReachable
        ⟨mode, pl, pr, true, t, running⟩).tier = t ∧
    (switchCamera splatReachable
        ⟨mode, pl, pr, true, t, running⟩).isSplatAttempted = true ∧
    (switchCamera splatReachable
        ⟨mode, pl, pr, true, t, running⟩).cameraMode = toggleMode mode ∧
    (switchCamera splatReachable
        ⟨mode, pl, pr, true, t, running⟩).isRunning = true ∧
    (switchCamera splatReachable s).smoothedPosLeft = ⟨0, 0, 0⟩ ∧
    (switchCamera splatReachable s).smoothedPosRight = ⟨0, 0, 0⟩ := by
  refine ⟨rfl, rfl, rfl, rfl, rfl, rfl, ?_, ?_⟩
  · exact (setupThreeAssets_smoothed splatReachable _).1
  · exact (setupThreeAssets_smoothed splatReachable _).2

/-- The concrete targets of the end-to-end input. -/
lemma targetX_rear640 : targetX rear640Input = -3/8 := by
  norm_num [targetX, normXof, rear640Input]
  decide

/-- The concrete Y target of the end-to-end input. -/
lemma targetY_rear640 : targetY rear640Input = -1/3 := by
  norm_num [targetY, normYof, rear640Input, WING_VERTICAL_SHIFT]

/-- C1: for every update sequence whose members are valid ShoulderPairs
(both confidences above 0.4) sharing one constant computed target, each
update moves each smoothed axis by `(target - smoothed) * 0.6`, the
remaining error is multiplied by exactly `2/5` per update (a 60%
contraction), and the X position approaches the target monotonically from
its starting side. -/
theorem anchor_smoothing_converges
    (inputs : List UpdateInput) (s0 : RigState) (tx ty : ℚ)
    (hvalid : ∀ i ∈ inputs, 2/5 < i.left.score ∧ 2/5 < i.right.score)
    (htx : ∀ i ∈ inputs, targetX i = tx)
    (hty : ∀ i ∈ inputs, targetY i = ty) :
    (∀ s : RigState, ∀ i ∈ inputs,
       (updateFromShoulders s i).posX = s.posX + (tx - s.posX) * (3/5) ∧
       (updateFromShoulders s i).posY = s.posY + (ty - s.posY) * (3/5)) ∧
    tx - (runUpdates s0 inputs).posX
      = (tx - s0.posX) * (2/5) ^ inputs.length ∧
    ty - (runUpdates s0 inputs).posY
      = (ty - s0.posY) * (2/5) ^ inputs.length ∧
    (∀ k : ℕ,
       |tx - (runUpdates s0 (inputs.take (k+1))).posX| ≤
         |tx - (runUpdates s0 (inputs.take k)).posX| ∧
       (s0.posX ≤ tx →
          (runUpdates s0 (inputs.take k)).posX ≤
            (runUpdates s0 (inputs.take (k+1))).posX ∧
          (runUpdates s0 (inputs.take k)).posX ≤ tx) ∧
       (tx ≤ s0.posX →
          (runUpdates s0 (inputs.take (k+1))).posX ≤
            (runUpdates s0 (inputs.take k)).posX ∧
          tx ≤ (runUpdates s0 (inputs.take k)).posX)) := by
  refine ⟨?_, runUpdates_error_x inputs s0 tx htx,
    runUpdates_error_y inputs s0 ty hty, ?_⟩
  · intro s i hi
    constructor
    · simp only [updateFromShoulders, htx i hi]
    · simp only [updateFromShoulders, hty i hi]
  · intro k
    have hk : ∀ m : ℕ, tx - (runUpdates s0 (inputs.take m)).posX
        = (tx - s0.posX) * (2/5) ^ (min m inputs.length) := by
      intro m
      have h := runUpdates_error_x (inputs.take m) s0 tx
        (fun i hi => htx i (List.mem_of_mem_take hi))
      rwa [List.length_take] at h
    have ek := hk k
    have ek1 := hk (k + 1)
    have hmle : min k inputs.length ≤ min (k + 1) inputs.length :=
      min_le_min (Nat.le_succ k) le_rfl
    have hq0 : (0:ℚ) ≤ 2/5 := by norm_num
    have hq1 : (2/5:ℚ) ≤ 1 := by norm_num
    have hpow : (2/5:ℚ) ^ (min (k+1) inputs.length)
        ≤ (2/5) ^ (min k inputs.length) :=
      pow_le_pow_of_le_one hq0 hq1 hmle
    have hp0 : (0:ℚ) ≤ (2/5) ^ (min k inputs.length) := pow_nonneg hq0 _
    have hp1 : (0:ℚ) ≤ (2/5) ^ (min (k+1) inputs.length) := pow_nonneg hq0 _
    refine ⟨?_, ?_, ?_⟩
    · rw [ek, ek1, abs_mul, abs_mul, abs_of_nonneg hp0, abs_of_nonneg hp1]
      exact mul_le_mul_of_nonneg_left hpow (abs_nonneg _)
    · intro h0
      have he0 : 0 ≤ tx - s0.posX := by linarith
      constructor
      · nlinarith
      · nlinarith
    · intro h0
      have he0 : tx - s0.posX ≤ 0 := by linarith
      constructor
      · nlinarith
      · nlinarith

/-- C1 witness: the error-contraction formula applied to the concrete
end-to-end input. -/
theorem anchor_smoothing_converges_witness :
    (2:ℚ)/5 < 9/10 ∧
    ((-3/8 : ℚ) - (runUpdates initialRig [rear640Input]).posX
      = ((-3/8 : ℚ) - initialRig.posX) * (2/5) ^ (1:ℕ)) := by
  constructor
  · norm_num
  · exact (anchor_smoothing_converges [rear640Input] initialRig (-3/8) (-1/3)
      (by intro i hi; rw [List.mem_singleton] at hi; subst hi
          constructor <;> norm_num [rear640Input])
      (by intro i hi; rw [List.mem_singleton] at hi; subst hi
          exact targetX_rear640)
      (by intro i hi; rw [List.mem_singleton] at hi; subst hi
          exact targetY_rear640)).2.1

/-- C8 counterexample: the detection-layer last-known-good cache is cleared
by a detection miss — with a valid pair cached, a tick whose detection
round returns no poses leaves `lastGood` empty. -/
theorem pose_cache_cleared_on_miss :
    estimateStep (some goodPair) DetectOutcome.noPoses = none ∧
    (tick ⟨some goodPair, initialRig⟩ (some DetectOutcome.noPoses)
        640 480 800 FacingMode.environment).poseLastGood = none :=
  ⟨rfl, rfl⟩

/-- One tick keeps `wings.lastAnchor` present: either no pair is cached and
the rig is untouched, or a pair is cached and `updateFromShoulders`
rewrites `lastAnchor` with a fresh `some`. -/
lemma tick_lastAnchor_isSome (s : DriverState) (det : Option DetectOutcome)
    (vw vh ih : ℚ) (fm : FacingMode)
    (h : s.rig.lastAnchor.isSome = true) :
    (tick s det vw vh ih fm).rig.lastAnchor.isSome = true := by
  cases hp : s.poseLastGood with
  | none => simpa [tick, hp] using h
  | some p => simp [tick, hp, updateFromShoulders]

/-- C8 amended: the hold-last-position cache that persists across detection
failures is the rig's `lastAnchor`, not the tracker's `lastGood`: once a
valid pair has been applied to the rig, `lastAnchor` stays present through
every subsequent tick, whatever each tick's detection outcome (miss, error
or fresh pair), until an explicit restart rebuilds the rig. -/
theorem wings_anchor_persists (s : DriverState) (events : List TickEvent)
    (h : s.rig.lastAnchor.isSome = true) :
    (runTicks s events).rig.lastAnchor.isSome = true := by
  induction events generalizing s with
  | nil => exact h
  | cons e t ih =>
    simp only [runTicks, List.foldl_cons] at *
    exact ih _ (tick_lastAnchor_isSome s e.det e.vw e.vh e.ih e.fm h)

/-- C8 witness: the anchor survives a concrete no-poses tick. -/
theorem wings_anchor_persists_witness :
    (runTicks ⟨none, { initialRig with lastAnchor := some goodPair }⟩
        [⟨some DetectOutcome.noPoses, 640, 480, 800,
          FacingMode.environment⟩]).rig.lastAnchor.isSome = true :=
  wings_anchor_persists _ _ rfl

/-- Lengths of the arrays produced by the record decode loop: 3, 4, 3 and 4
entries per record. -/
lemma decodeSplats_lengths (d : List ℕ) (n : ℕ) : ∀ off : ℕ,
    (decodeSplats d off n).1.length = 3 * n ∧
    (decodeSplats d off n).2.1.length = 4 * n ∧
    (decodeSplats d off n).2.2.1.length = 3 * n ∧
    (decodeSplats d off n).2.2.2.length = 4 * n := by
  induction n with
  | zero => intro off; simp [decodeSplats]
  | succ m ih =>
    intro off
    obtain ⟨h1, h2, h3, h4⟩ := ih (off + 44)
    simp only [decodeSplats, List.length_cons, h1, h2, h3, h4]
    omega

/-- Successful parse of `d` into `c` records with the four given array
lengths. -/
def ksplatOkWith (d : List ℕ) (c np nc ns nr : ℕ) : Prop :=
  ∃ s : SplatData, parseKsplat d = Except.ok s ∧ s.count = c ∧
    s.positions.length = np ∧ s.colors.length = nc ∧
    s.scales.length = ns ∧ s.rotations.length = nr

/-- Successful parse of `d` into `c` records. -/
def ksplatOkCount (d : List ℕ) (c : ℕ) : Prop :=
  ∃ s : SplatData, parseKsplat d = Except.ok s ∧ s.count = c

/-- C4: a buffer with the `KSP` magic header, a declared little-endian
count of 2 and two complete 44-byte records (total 96 bytes) decodes to
`count = 2` with 6 position words, 8 color bytes, 6 scale words and 8
rotation words, laid out as 12 position bytes, 16 quaternion bytes, 12
scale bytes and 4 RGBA bytes per record. -/
theorem parse_two_record_header (d : List ℕ)
    (hlen : d.length = 96) (hhdr : hasKSPHeader d = true)
    (hcnt : word32At d 4 = 2) :
    ksplatOkWith d 2 6 8 6 8 := by
  have h4 : ¬ d.length < 4 := by omega
  have h8 : ¬ d.length < 8 := by omega
  unfold ksplatOkWith parseKsplat
  rw [if_neg h4, if_pos hhdr, if_neg h8, hcnt]
  unfold parseBody
  rw [if_neg (by norm_num : ¬((2:ℕ) = 0 ∨ (2:ℕ) > 10000000))]
  unfold finishParse
  rw [if_neg (show ¬ d.length < 8 + 2 * 44 by omega)]
  obtain ⟨h1, h2, h3, h4'⟩ := decodeSplats_lengths d 2 8
  exact ⟨_, rfl, rfl, by rw [h1], by rw [h2], by rw [h3], by rw [h4']⟩

/-- A concrete 96-byte buffer: `KSP` magic, version 1, count 2, 88 record
bytes. -/
def sampleKsplat96 : List ℕ :=
  [75, 83, 80, 1, 2, 0, 0, 0] ++ List.replicate 88 7

/-- C4 witness: the concrete 96-byte buffer parses as claimed. -/
theorem parse_two_record_header_witness :
    ksplatOkWith sampleKsplat96 2 6 8 6 8 :=
  parse_two_record_header sampleKsplat96 (by decide) (by decide) (by decide)

/-- Byte reads from an all-zero buffer yield zero. -/
lemma byteAt_replicate_zero (n i : ℕ) :
    byteAt (List.replicate n 0) i = 0 := by
  unfold byteAt
  rcases lt_or_ge i n with h | h
  · rw [List.getD_eq_getElem?_getD, List.getElem?_replicate, if_pos h]
    rfl
  · rw [List.getD_eq_getElem?_getD, List.getElem?_replicate,
      if_neg (by omega)]
    rfl

/-- Word reads from an all-zero buffer yield zero. -/
lemma word32At_replicate_zero (n i : ℕ) :
    word32At (List.replicate n 0) i = 0 := by
  simp [word32At, u32le, byteAt_replicate_zero]

/-- An all-zero buffer has no `KSP` magic. -/
lemma hasKSP_replicate_zero (n : ℕ) :
    hasKSPHeader (List.replicate n 0) = false := by
  simp [hasKSPHeader, byteAt_replicate_zero]

/-- Shared case analysis of the headerless fallback path: with the
declared count out of range, the estimate `(length - 4) / 44` is accepted
exactly when it lies in the open interval `(0, 10000000)`. -/
lemma parse_headerless_cases (d : List ℕ)
    (hhdr : hasKSPHeader d = false) (hlen : 4 ≤ d.length)
    (hdecl : word32At d 0 = 0 ∨ word32At d 0 > 10000000) :
    (0 < (d.length - 4) / 44 ∧ (d.length - 4) / 44 < 10000000 →
      ksplatOkCount d ((d.length - 4) / 44)) ∧
    (¬(0 < (d.length - 4) / 44 ∧ (d.length - 4) / 44 < 10000000) →
      parseKsplat d
        = Except.error (ParseError.invalidCount (word32At d 0))) := by
  have h4 : ¬ d.length < 4 := by omega
  constructor
  · intro hest
    unfold ksplatOkCount parseKsplat
    rw [if_neg h4, if_neg (by simp [hhdr])]
    unfold parseBody
    rw [if_pos hdecl, if_pos hest]
    unfold finishParse
    have hfit : ¬ d.length < 4 + (d.length - 4) / 44 * 44 := by
      have hmul := Nat.div_mul_le_self (d.length - 4) 44
      omega
    rw [if_neg hfit]
    exact ⟨_, rfl, rfl⟩
  · intro hest
    unfold parseKsplat
    rw [if_neg h4, if_neg (by simp [hhdr])]
    unfold parseBody
    rw [if_pos hdecl, if_neg hest]

/-- C5 counterexample: at the acceptance boundary the size-based estimate
is rejected, not accepted.  A headerless all-zero buffer of exactly
`4 + 44 * 10000000` bytes has estimate `10000000`; the claim's interval
`(0, 10000000]` would accept it, but the code's strict
`estimatedCount < 10000000` test rejects the buffer as corrupt. -/
theorem estimate_boundary_rejected :
    parseKsplat (List.replicate 440000004 0)
      = Except.error (ParseError.invalidCount 0) := by
  have hlen : (List.replicate 440000004 (0:ℕ)).length = 440000004 :=
    List.length_replicate _ _
  have h := (parse_headerless_cases (List.replicate 440000004 0)
    (hasKSP_replicate_zero _) (by rw [hlen]; norm_num)
    (Or.inl (word32At_replicate_zero _ _))).2 (by rw [hlen]; norm_num)
  rwa [word32At_replicate_zero] at h

/-- C5 amended: for a headerless buffer whose declared count is 0 or above
10000000, the decoder uses the estimate `(length - 4) / 44`, accepting it
exactly when it lies in the OPEN interval `(0, 10000000)` — in which case
the parse succeeds with that count (the estimate can never exceed the
remaining bytes) — and otherwise rejecting the buffer as corrupt. -/
theorem headerless_count_estimation (d : List ℕ)
    (hhdr : hasKSPHeader d = false) (hlen : 4 ≤ d.length)
    (hdecl : word32At d 0 = 0 ∨ word32At d 0 > 10000000) :
    (0 < (d.length - 4) / 44 ∧ (d.length - 4) / 44 < 10000000 →
      ksplatOkCount d ((d.length - 4) / 44)) ∧
    (¬(0 < (d.length - 4) / 44 ∧ (d.length - 4) / 44 < 10000000) →
      parseKsplat d
        = Except.error (ParseError.invalidCount (word32At d 0))) :=
  parse_headerless_cases d hhdr hlen hdecl

set_option maxRecDepth 100000 in
/-- C5 witness: a headerless 136-byte buffer with first 4 bytes zero is
size-estimated to `(136 - 4) / 44 = 3` records and parses with count 3. -/
theorem headerless_count_estimation_witness :
    ksplatOkCount (List.replicate 136 0) 3 :=
  (headerless_count_estimation (List.replicate 136 0)
    (hasKSP_replicate_zero 136)
    (by rw [List.length_replicate]; norm_num)
    (Or.inl (word32At_replicate_zero 136 0))).1
    (by rw [List.length_replicate]; norm_num)

/-- A successful `finishParse` reports the accepted count and implies the
buffer holds all its records. -/
lemma finishParse_ok (d : List ℕ) (off count : ℕ) (s : SplatData)
    (hs : finishParse d off count = Except.ok s) :
    s.count = count ∧ off + count * 44 ≤ d.length := by
  unfold finishParse at hs
  by_cases h : d.length < off + count * 44
  · rw [if_pos h] at hs
    simp at hs
  · rw [if_neg h] at hs
    injection hs with h'
    subst h'
    exact ⟨rfl, by omega⟩

/-- A successful `parseBody` has a positive accepted count that fits in the
buffer. -/
lemma parseBody_bounds (d : List ℕ) (off declared : ℕ) (s : SplatData)
    (hs : parseBody d off declared = Except.ok s) :
    0 < s.count ∧ off + s.count * 44 ≤ d.length := by
  unfold parseBody at hs
  by_cases hd : declared = 0 ∨ declared > 10000000
  · rw [if_pos hd] at hs
    by_cases he : 0 < (d.length - off) / 44 ∧ (d.length - off) / 44 < 10000000
    · rw [if_pos he] at hs
      obtain ⟨hc, hb⟩ := finishParse_ok d off _ s hs
      rw [hc]
      exact ⟨he.1, hb⟩
    · rw [if_neg he] at hs
      simp at hs
  · rw [if_neg hd] at hs
    obtain ⟨hc, hb⟩ := finishParse_ok d off declared s hs
    rw [hc]
    have hd0 : ¬ declared = 0 := fun h => hd (Or.inl h)
    exact ⟨by omega, hb⟩

/-- C10: truncation safety of the container decoder — a buffer under 4
bytes is rejected with an error, and whenever the decoder returns
successfully the accepted count is positive and all decoded byte indices
(`headerOffset + 44 × count` bytes in total) lie within the buffer, so no
read ever falls past the end. -/
theorem parse_bounds_safety (d : List ℕ) :
    (d.length < 4 → parseKsplat d = Except.error ParseError.tooSmall) ∧
    (∀ s : SplatData, parseKsplat d = Except.ok s →
      0 < s.count ∧ headerOffset d + s.count * 44 ≤ d.length) := by
  constructor
  · intro h
    unfold parseKsplat
    rw [if_pos h]
  · intro s hs
    unfold parseKsplat at hs
    by_cases h4 : d.length < 4
    · rw [if_pos h4] at hs
      simp at hs
    rw [if_neg h4] at hs
    by_cases hh : hasKSPHeader d
    · rw [if_pos hh] at hs
      by_cases h8 : d.length < 8
      · rw [if_pos h8] at hs
        simp at hs
      rw [if_neg h8] at hs
      have hoff : headerOffset d = 8 := by simp [headerOffset, hh]
      rw [hoff]
      exact parseBody_bounds d 8 _ s hs
    · rw [if_neg hh] at hs
      have hoff : headerOffset d = 4 := by simp [headerOffset, hh]
      rw [hoff]
      exact parseBody_bounds d 4 _ s hs

set_option maxRecDepth 100000 in
/-- C10 witness: the short-buffer rejection at `[0]` and the in-bounds
guarantee at the 136-byte all-zero buffer. -/
theorem parse_bounds_safety_witness :
    parseKsplat [0] = Except.error ParseError.tooSmall ∧
    (0 < 3 ∧ 4 + 3 * 44 ≤ 136) := by
  constructor
  · exact (parse_bounds_safety [0]).1 (by decide)
  · exact (parse_bounds_safety (List.replicate 136 0)).2
      ⟨List.replicate 9 0, [0, 0, 0, 255, 0, 0, 0, 255, 0, 0, 0, 255],
        List.replicate 9 0, List.replicate 12 0, 3⟩ rfl

end ARWings
